import Mathlib

/-!
Shallow embedding of the WiFiRoomSensor ESP8266 communication stack
(src/esp8266_transceiver.c and src/esp8266_session.c) and proofs about it.

Conventions:
* Machine integers are modelled as `Nat` with explicit `% 2^w` where the C
  code can wrap (`uint8_t` arithmetic, `uint16_t` accumulation).
* The 128-byte round-robin buffer is a function `Fin 128 → Nat`; the C code
  always indexes it with values kept below 128 via the `ESP8266_TRANSC_RRADD`
  macro, and the embedding indexes through `rrIndex` (reduction mod 128).
* The two callback function pointers (status / message) are modelled by an
  explicit event trace: each decoder step returns the list of callback
  invocations it performs, in order.
* Interrupt handlers are plain state transformers; hardware registers appear
  as explicit inputs (received byte) and outputs (byte written to UDR).
-/

set_option maxRecDepth 100000

namespace WiFiRoomSensor

/-- Status enumeration from `error.h` as used by the communication stack
(`success`, `err_noChange`, `err_inputExpected`, `err_invalidState` are the
members referenced by `esp8266_transceiver.c` / `esp8266_session.c`). -/
inductive status_t where
  | success
  | err_chksum
  | err_noSignal
  | err_invalidChannel
  | err_status
  | err_invalidState
  | err_noChange
  | err_inputExpected
deriving DecidableEq, Repr

open status_t

/-- Decoder state enumeration of `esp8266_transceiver.c` (anonymous enum
`esp8266_transc_state`). -/
inductive DecState where
  | IDLE
  | ERR
  | NL
  | STATUS_MSG
  | BGN_MSG
  | READ_CHN
  | READ_LENGTH
  | DATA_IN
  | READ_NL
  | READ_STATUS
  | CMD_PROMPT
deriving DecidableEq, Repr

open DecState

/-- Callback invocations performed by the decoder: `statusEv` models a call of
the registered status callback, `messageEv` a call of the message callback
with `(status, channel, size, rrbID)`. -/
inductive TranscEvent where
  | statusEv (st : status_t)
  | messageEv (st : status_t) (channel : Nat) (size : Nat) (rrbID : Nat)
deriving DecidableEq, Repr

/-- The file-scope mutable state of `esp8266_transceiver.c`:
round-robin buffer, its cursors, the parser scratch variables and the
send-transaction bookkeeping. All `uint8_t` fields are `Nat`s kept below
their modulus by the operations themselves. -/
structure Transc where
  rrBuffer : Fin 128 → Nat
  rrFirst : Nat
  rrFirstUnprocessed : Nat
  rrAllocation : Nat
  rcvChannelID : Nat
  rcvSize : Nat
  state : DecState
  sendBuffer : List Nat
  sendBufferSize : Nat
  sendIndex : Nat
  nextEcho : Nat
deriving DecidableEq

/-- `ESP8266_TRANSC_RRADD`: addition modulo the buffer size (128). -/
def rradd (a b : Nat) : Nat := (a + b) % 128

/-- `ESP8266_TRANSC_RRSUB`: subtraction modulo the buffer size. In C the
`uint8_t` operands are promoted to `int`, the (possibly negative) difference
is converted to `unsigned` and reduced `% 128`; since 2^16 is a multiple of
128 this equals the mathematical `(a - b) mod 128`, which the term below
computes for all `Nat` inputs. -/
def rrsub (a b : Nat) : Nat := (a + 128 - b % 128) % 128

/-- Index into the 128-byte round-robin buffer (the C code always passes
values below 128, produced by `ESP8266_TRANSC_RRADD`). -/
def rrIndex (i : Nat) : Fin 128 := ⟨i % 128, Nat.mod_lt _ (by norm_num)⟩

/-- ASCII bytes of the PROGMEM string `"OK"`. -/
def esp8266_transc_str_ok : List Nat := [79, 75]

/-- ASCII bytes of the PROGMEM string `"SEND OK"`. -/
def esp8266_transc_str_sendOk : List Nat := [83, 69, 78, 68, 32, 79, 75]

/-- ASCII bytes of the PROGMEM string `"no change"`. -/
def esp8266_transc_str_noChange : List Nat := [110, 111, 32, 99, 104, 97, 110, 103, 101]

/-- ASCII bytes of the PROGMEM string `"IPD"`. -/
def esp8266_transc_str_rcv : List Nat := [73, 80, 68]

/-- `esp8266_transc_init`: clears all cursors and bookkeeping and sets the
decoder to `IDLE` (the static round-robin buffer is zero-initialized; UART
hardware configuration has no software-visible state here). -/
def esp8266_transc_init : Transc where
  rrBuffer := fun _ => 0
  rrFirst := 0
  rrFirstUnprocessed := 0
  rrAllocation := 0
  rcvChannelID := 0
  rcvSize := 0
  state := IDLE
  sendBuffer := []
  sendBufferSize := 0
  sendIndex := 0
  nextEcho := 0

/-- `esp8266_transc_decreaseBufferSync`: advances `rrFirstUnprocessed` by one,
then (inside a critical section) decreases `rrAllocation` by the distance
between the new `rrFirstUnprocessed` and `rrFirst` and advances `rrFirst` to
it. The `uint8_t` decrement wraps mod 256. -/
def esp8266_transc_decreaseBufferSync (s : Transc) : Transc :=
  let fup := rradd s.rrFirstUnprocessed 1
  { s with
    rrFirstUnprocessed := fup
    rrAllocation := (s.rrAllocation + 256 - rrsub fup s.rrFirst) % 256
    rrFirst := fup }

/-- Loop auxiliary of `esp8266_transc_rrStringToNumber`: walks from `rrStart`
to `rrEnd` accumulating decimal digits; `ret` wraps as `uint16_t`, the digit
conversion as `uint8_t`. The fuel bound 128 covers every cursor distance that
can arise in the 128-byte buffer. -/
def esp8266_transc_rrStringToNumberAux (buf : Fin 128 → Nat) (rrEnd : Nat) :
    Nat → Nat → Nat → Nat
  | 0, _, ret => ret
  | fuel + 1, rrStart, ret =>
    if rrStart = rrEnd then ret
    else
      esp8266_transc_rrStringToNumberAux buf rrEnd fuel (rradd rrStart 1)
        ((ret * 10 + (buf (rrIndex rrStart) + 256 - 48) % 256) % 65536)

/-- `esp8266_transc_rrStringToNumber`: converts the decimal string stored in
the round-robin buffer between `rrStart` (inclusive) and `rrEnd` (exclusive)
into a `uint16_t`. -/
def esp8266_transc_rrStringToNumber (buf : Fin 128 → Nat) (rrStart rrEnd : Nat) : Nat :=
  esp8266_transc_rrStringToNumberAux buf rrEnd 128 rrStart 0

/-- `esp8266_transc_rrstrcmp_PF`: compares the round-robin buffer content from
`rrStart` (inclusive) to `rrEnd` (exclusive) against the zero-terminated
PROGMEM string `ref` (modelled as the list of its bytes before the
terminator). The structure mirrors the C do-while loop: compare one byte,
advance both cursors, continue while the buffer cursor has not reached
`rrEnd` and the reference has characters left, then compare lengths. -/
def esp8266_transc_rrstrcmp_PF (buf : Fin 128 → Nat) :
    Nat → Nat → List Nat → Int
  | rrStart, rrEnd, [] =>
    let c : Int := buf (rrIndex rrStart)
    if c ≠ 0 then c
    else if rradd rrStart 1 = rrEnd then 0 else 1
  | rrStart, rrEnd, r :: rest =>
    let c : Int := buf (rrIndex rrStart)
    if c ≠ (r : Int) then c - r
    else
      let s1 := rradd rrStart 1
      if s1 ≠ rrEnd ∧ rest.headD 0 ≠ 0 then
        esp8266_transc_rrstrcmp_PF buf s1 rrEnd rest
      else if s1 = rrEnd then (if rest.headD 0 = 0 then 0 else -1) else 1

/-- `esp8266_transc_processNextChar`: processes the byte at
`rrFirstUnprocessed` through the decoder state machine, returning the new
state and the callback invocations performed. -/
def esp8266_transc_processNextChar (s : Transc) : Transc × List TranscEvent :=
  let cChar := s.rrBuffer (rrIndex s.rrFirstUnprocessed)
  match s.state with
  | IDLE =>
    if cChar = 13 ∨ cChar = 10 then
      (esp8266_transc_decreaseBufferSync { s with state := NL }, [])
    else
      (esp8266_transc_decreaseBufferSync { s with state := ERR }, [])
  | ERR =>
    if cChar = 10 then
      (esp8266_transc_decreaseBufferSync { s with state := IDLE }, [])
    else
      (esp8266_transc_decreaseBufferSync s, [])
  | NL =>
    if cChar = 10 ∨ cChar = 13 then
      (esp8266_transc_decreaseBufferSync s, [])
    else if cChar = 43 then -- '+'
      (esp8266_transc_decreaseBufferSync { s with state := BGN_MSG }, [])
    else if cChar = 62 then -- '>'
      (esp8266_transc_decreaseBufferSync { s with state := CMD_PROMPT }, [])
    else
      -- Keep the first byte of the status message
      ({ s with state := STATUS_MSG }, [])
  | STATUS_MSG =>
    if cChar = 13 then -- '\r'
      let st :=
        if esp8266_transc_rrstrcmp_PF s.rrBuffer s.rrFirst s.rrFirstUnprocessed
            esp8266_transc_str_ok = 0 then success
        else if esp8266_transc_rrstrcmp_PF s.rrBuffer s.rrFirst s.rrFirstUnprocessed
            esp8266_transc_str_sendOk = 0 then success
        else if esp8266_transc_rrstrcmp_PF s.rrBuffer s.rrFirst s.rrFirstUnprocessed
            esp8266_transc_str_noChange = 0 then err_noChange
        else err_status
      (esp8266_transc_decreaseBufferSync { s with state := ERR },
        [TranscEvent.statusEv st])
    else
      ({ s with rrFirstUnprocessed := rradd s.rrFirstUnprocessed 1 }, [])
  | BGN_MSG =>
    if cChar = 44 then -- ','
      if esp8266_transc_rrstrcmp_PF s.rrBuffer s.rrFirst s.rrFirstUnprocessed
          esp8266_transc_str_rcv = 0 then
        (esp8266_transc_decreaseBufferSync { s with state := READ_CHN }, [])
      else
        (esp8266_transc_decreaseBufferSync { s with state := ERR }, [])
    else if cChar = 58 then -- ':'
      (esp8266_transc_decreaseBufferSync { s with state := ERR }, [])
    else
      ({ s with rrFirstUnprocessed := rradd s.rrFirstUnprocessed 1 }, [])
  | READ_CHN =>
    if cChar = 44 then -- ','
      let chn := esp8266_transc_rrStringToNumber s.rrBuffer s.rrFirst
        s.rrFirstUnprocessed % 256
      if chn ≥ 4 then
        (esp8266_transc_decreaseBufferSync { s with rcvChannelID := chn, state := ERR }, [])
      else
        (esp8266_transc_decreaseBufferSync
          { s with rcvChannelID := chn, state := READ_LENGTH }, [])
    else if cChar < 48 ∨ cChar > 57 then -- not a decimal digit
      (esp8266_transc_decreaseBufferSync { s with state := ERR }, [])
    else
      ({ s with rrFirstUnprocessed := rradd s.rrFirstUnprocessed 1 }, [])
  | READ_LENGTH =>
    if cChar = 58 then -- ':'
      let sz := esp8266_transc_rrStringToNumber s.rrBuffer s.rrFirst
        s.rrFirstUnprocessed
      if sz ≥ 128 - 10 then
        (esp8266_transc_decreaseBufferSync { s with rcvSize := sz, state := ERR }, [])
      else
        (esp8266_transc_decreaseBufferSync { s with rcvSize := sz, state := DATA_IN }, [])
    else if cChar < 48 ∨ cChar > 57 then
      (esp8266_transc_decreaseBufferSync { s with state := ERR }, [])
    else
      ({ s with rrFirstUnprocessed := rradd s.rrFirstUnprocessed 1 }, [])
  | DATA_IN =>
    let sAfter :=
      if rrsub s.rrFirstUnprocessed s.rrFirst ≥ s.rcvSize then
        if cChar = 13 then { s with state := READ_NL } else { s with state := ERR }
      else s
    ({ sAfter with rrFirstUnprocessed := rradd sAfter.rrFirstUnprocessed 1 }, [])
  | READ_NL =>
    if cChar = 13 ∨ cChar = 10 then
      ({ s with rrFirstUnprocessed := rradd s.rrFirstUnprocessed 1 }, [])
    else
      -- Do not consume the current character
      ({ s with state := READ_STATUS }, [])
  | READ_STATUS =>
    if cChar = 13 then
      let st :=
        if esp8266_transc_rrstrcmp_PF s.rrBuffer
            (rrsub s.rrFirstUnprocessed 2) s.rrFirstUnprocessed
            esp8266_transc_str_ok = 0 then success
        else err_status
      (esp8266_transc_decreaseBufferSync { s with state := ERR },
        [TranscEvent.messageEv st s.rcvChannelID s.rcvSize s.rrFirst])
    else
      ({ s with rrFirstUnprocessed := rradd s.rrFirstUnprocessed 1 }, [])
  | CMD_PROMPT =>
    if cChar = 32 then -- ' '
      (esp8266_transc_decreaseBufferSync { s with state := IDLE },
        [TranscEvent.statusEv err_inputExpected])
    else
      (esp8266_transc_decreaseBufferSync { s with state := ERR }, [])

/-- `esp8266_receiver_getByte`: random access into the round-robin buffer at
`(rrbID + offset) mod 128`. -/
def esp8266_receiver_getByte (s : Transc) (rrbID offset : Nat) : Nat :=
  s.rrBuffer (rrIndex (rradd rrbID offset))

/-- Loop condition of `esp8266_transc_tick`: an unprocessed byte remains while
the distance from `rrFirst` to `rrFirstUnprocessed` is below `rrAllocation`. -/
def loopCond (s : Transc) : Prop :=
  rrsub s.rrFirstUnprocessed s.rrFirst < s.rrAllocation

instance (s : Transc) : Decidable (loopCond s) := by
  unfold loopCond; infer_instance

/-- Fuelled unfolding of the `esp8266_transc_tick` while-loop: as long as the
loop condition holds, process the next character, accumulating the callback
events in order. (The C loop carries no fuel; the termination and
non-termination results below are stated through this unfolding.) -/
def tickRun : Nat → Transc → Transc × List TranscEvent
  | 0, s => (s, [])
  | fuel + 1, s =>
    if loopCond s then
      let r := esp8266_transc_processNextChar s
      let r2 := tickRun fuel r.1
      (r2.1, r.2 ++ r2.2)
    else (s, [])

/-- Iterates the state part of `esp8266_transc_processNextChar` (one iteration
of the tick loop body) `k` times, unconditionally. -/
def stepN : Nat → Transc → Transc
  | 0, s => s
  | k + 1, s => stepN k (esp8266_transc_processNextChar s).1

/-- `ISR(USART_RXC_vect)`: the receive interrupt handler with received byte
`rcv`. If a send transaction still expects echoed bytes and the byte matches,
it is absorbed; otherwise it is appended to the round-robin buffer unless the
buffer is fully allocated. -/
def usart_rxc_isr (s : Transc) (rcv : Nat) : Transc :=
  let echoed := s.nextEcho < s.sendBufferSize ∧ rcv = s.sendBuffer.getD s.nextEcho 0
  if echoed then { s with nextEcho := s.nextEcho + 1 }
  else if s.rrAllocation < 128 then
    { s with
      rrBuffer := Function.update s.rrBuffer (rrIndex (rradd s.rrFirst s.rrAllocation)) rcv
      rrAllocation := s.rrAllocation + 1 }
  else s

/-- `esp8266_transc_send`: records the new send transaction, writes the first
buffer byte to the UART data register (returned as second component) and arms
the data-register-empty interrupt. `UDR = buffer[0]` is executed
unconditionally, also for `size = 0`. -/
def esp8266_transc_send (s : Transc) (buffer : List Nat) (size : Nat) : Transc × Nat :=
  ({ s with
      nextEcho := 0
      sendBufferSize := size
      sendBuffer := buffer
      sendIndex := 1 },
    buffer.getD 0 0)

/-- `ISR(USART_UDRE_vect)`: transmits the next byte of the send buffer, or
disarms itself (`none`) when `sendIndex` has reached `sendBufferSize`. -/
def usart_udre_isr (s : Transc) : Transc × Option Nat :=
  if s.sendIndex < s.sendBufferSize then
    ({ s with sendIndex := s.sendIndex + 1 }, some (s.sendBuffer.getD s.sendIndex 0))
  else (s, none)

/-- Collects the bytes streamed by repeated data-register-empty interrupts
until the handler disarms itself. -/
def udreRun : Nat → Transc → Transc × List Nat
  | 0, s => (s, [])
  | fuel + 1, s =>
    match usart_udre_isr s with
    | (s1, none) => (s1, [])
    | (s1, some b) =>
      let r := udreRun fuel s1
      (r.1, b :: r.2)

/-- All bytes written to the UART data register by `esp8266_transc_send`
followed by the interrupt-driven streaming of the remainder. -/
def transc_transmittedBytes (s : Transc) (buffer : List Nat) (size : Nat) : List Nat :=
  let r := esp8266_transc_send s buffer size
  r.2 :: (udreRun 256 r.1).2

/-- Feeds a byte sequence through the receive interrupt handler in order. -/
def feedAll (s : Transc) (l : List Nat) : Transc := l.foldl usart_rxc_isr s

/-- The `d` bytes stored in the round-robin buffer starting at index `start`
(wrapping mod 128): the text a decoder accumulation run has gathered. -/
def rrSlice (buf : Fin 128 → Nat) : Nat → Nat → List Nat
  | _, 0 => []
  | start, d + 1 => buf (rrIndex start) :: rrSlice buf (rradd start 1) d

/-! ### Session controller (`esp8266_session.c`) -/

/-- Session controller state enumeration (anonymous enum
`esp8266_session_state`). -/
inductive SessPhase where
  | IDLE
  | INIT_WAIT
  | INIT_SETMUX
  | INIT_OPENSRV
  | INIT_LONG_RETRY
  | INIT_MODE
  | INIT_NETWORK
  | SEND_INITIATED
  | SEND_DATA
deriving DecidableEq, Repr

/-- Externally visible actions of the session controller: starting a UART
transmission (`esp8266_transc_send` with the given bytes), invoking the send
completion callback (identified by the `Nat` recorded at `send` time), and
updating the persistent configuration flag in EEPROM. The modelled
`sendToAll` emits `broadcast`: a transmission addressed to all connected
channels. -/
inductive SessAction where
  | transmit (bytes : List Nat)
  | complete (cb : Nat) (st : status_t)
  | eepromWrite (v : Nat)
  | broadcast (bytes : List Nat) (size : Nat)
deriving DecidableEq, Repr

/-- The file-scope mutable state of `esp8266_session.c`. The callback pointer
is modelled by an opaque identifier; `chipConfigured` models the
`EEMEM` persistent flag. `buffer` is the command assembly buffer
`esp8266_session_buffer` (its used prefix). -/
structure Sess where
  state : SessPhase
  remainingTicks : Nat
  retryCnt : Nat
  sendCompleteCB : Nat
  sendBufferReference : List Nat
  sendBufferSize : Nat
  buffer : List Nat
  chipConfigured : Bool
deriving DecidableEq, Repr

/-- `SYSTEM_TIMER_MS_TO_TICKS` with `SYSTEM_TIMER_PERIOD_MS = 197`. -/
def msToTicks (ms : Nat) : Nat := (ms + 197 - 1) / 197

/-- ASCII bytes of `"AT+CIPMUX=1"`. -/
def esp8266_session_cmdMux : List Nat :=
  [65, 84, 43, 67, 73, 80, 77, 85, 88, 61, 49]

/-- ASCII bytes of `"AT+CIPSERVER=1,"` followed by `NW_CONFIG_SRV_PORT`
(`"61499"`). -/
def esp8266_session_cmdOpenSrv : List Nat :=
  [65, 84, 43, 67, 73, 80, 83, 69, 82, 86, 69, 82, 61, 49, 44, 54, 49, 52, 57, 57]

/-- ASCII bytes of `"AT+RST"`. -/
def esp8266_session_cmdReset : List Nat := [65, 84, 43, 82, 83, 84]

/-- ASCII bytes of `"AT+CIPSEND="` (`ESP8266_SESSION_CMD_SEND_LENGTH = 11`). -/
def esp8266_session_cmdSend : List Nat :=
  [65, 84, 43, 67, 73, 80, 83, 69, 78, 68, 61]

/-- ASCII bytes of `"AT+CWMODE=1"`. -/
def esp8266_session_cmdMode : List Nat :=
  [65, 84, 43, 67, 87, 77, 79, 68, 69, 61, 49]

/-- Bytes of the network password `NW_CONFIG_PWD`, included from `pwd.txt`
which is not part of the sources; no claim depends on its contents. -/
def NW_CONFIG_PWD : List Nat := []

/-- ASCII bytes of `"AT+CWJAP=\"" NW_CONFIG_NETWORK "\",\"" NW_CONFIG_PWD "\""`
with `NW_CONFIG_NETWORK = "Elysion"`. -/
def esp8266_session_cmdNetwork : List Nat :=
  [65, 84, 43, 67, 87, 74, 65, 80, 61, 34, 69, 108, 121, 115, 105, 111, 110, 34, 44, 34]
    ++ NW_CONFIG_PWD ++ [34]

/-- Decimal ASCII digits produced by `utoa(n, buf, 10)`. -/
def decimalDigits (n : Nat) : List Nat := (Nat.toDigits 10 n).map Char.toNat

/-- `esp8266_session_sendCommand_P`: copies the command into the module
buffer, appends `"\r\n"` (13, 10) and hands the buffer to
`esp8266_transc_send`. -/
def esp8266_session_sendCommand_P (s : Sess) (cmd : List Nat) : Sess × List SessAction :=
  let msg := cmd ++ [13, 10]
  ({ s with buffer := msg }, [SessAction.transmit msg])

/-- `esp8266_session_init`: initializes the transceiver, schedules a 1000 ms
wait in `INIT_WAIT` and sets the retry counter to 3. The persistent flag
starts at 0 (its `EEMEM` initializer). -/
def esp8266_session_init : Sess where
  state := SessPhase.INIT_WAIT
  remainingTicks := msToTicks 1000
  retryCnt := 3
  sendCompleteCB := 0
  sendBufferReference := []
  sendBufferSize := 0
  buffer := []
  chipConfigured := false

/-- `esp8266_session_handleInitError`: if retries remain, decrement the
counter and re-enter `INIT_WAIT` with a 1500 ms wait; otherwise enter
`INIT_LONG_RETRY` with a 180000 ms wait and reset the counter to 1. Either
way an `AT+RST` command is issued. -/
def esp8266_session_handleInitError (s : Sess) : Sess × List SessAction :=
  let s1 :=
    if s.retryCnt > 0 then
      { s with
        state := SessPhase.INIT_WAIT
        retryCnt := s.retryCnt - 1
        remainingTicks := msToTicks 1500 }
    else
      { s with
        state := SessPhase.INIT_LONG_RETRY
        retryCnt := 1
        remainingTicks := msToTicks 180000 }
  esp8266_session_sendCommand_P s1 esp8266_session_cmdReset

/-- `esp8266_session_statusReceived`: the status-callback driven part of the
session state machine. -/
def esp8266_session_statusReceived (s : Sess) (status : status_t) :
    Sess × List SessAction :=
  match s.state with
  | SessPhase.INIT_SETMUX =>
    if status = success ∨ status = err_noChange then
      esp8266_session_sendCommand_P { s with state := SessPhase.INIT_OPENSRV }
        esp8266_session_cmdOpenSrv
    else esp8266_session_handleInitError s
  | SessPhase.INIT_OPENSRV =>
    if status = success ∨ status = err_noChange then
      ({ s with state := SessPhase.IDLE }, [])
    else esp8266_session_handleInitError s
  | SessPhase.INIT_MODE =>
    if status = success ∨ status = err_noChange then
      esp8266_session_sendCommand_P { s with state := SessPhase.INIT_NETWORK }
        esp8266_session_cmdNetwork
    else esp8266_session_handleInitError s
  | SessPhase.INIT_NETWORK =>
    if status = success ∨ status = err_noChange then
      let s1 := { s with
        chipConfigured := true
        state := SessPhase.INIT_WAIT
        remainingTicks := msToTicks 1500 }
      let r := esp8266_session_sendCommand_P s1 esp8266_session_cmdReset
      (r.1, SessAction.eepromWrite 1 :: r.2)
    else esp8266_session_handleInitError s
  | SessPhase.SEND_INITIATED =>
    if status = err_inputExpected then
      ({ s with state := SessPhase.SEND_DATA },
        [SessAction.transmit (s.sendBufferReference.take s.sendBufferSize)])
    else
      ({ s with state := SessPhase.IDLE },
        [SessAction.complete s.sendCompleteCB status])
  | SessPhase.SEND_DATA =>
    ({ s with state := SessPhase.IDLE },
      [SessAction.complete s.sendCompleteCB status])
  | _ => (s, [])

/-- `esp8266_session_timedTick`: decrements the wait counter; at zero, the
`INIT_WAIT` / `INIT_LONG_RETRY` states start the short initialization path
(`AT+CIPMUX=1`) if the chip is already configured, and the long path
(`AT+CWMODE=1`) otherwise. -/
def esp8266_session_timedTick (s : Sess) : Sess × List SessAction :=
  if s.remainingTicks > 0 then
    ({ s with remainingTicks := s.remainingTicks - 1 }, [])
  else
    match s.state with
    | SessPhase.INIT_WAIT =>
      if s.chipConfigured then
        esp8266_session_sendCommand_P { s with state := SessPhase.INIT_SETMUX }
          esp8266_session_cmdMux
      else
        esp8266_session_sendCommand_P { s with state := SessPhase.INIT_MODE }
          esp8266_session_cmdMode
    | SessPhase.INIT_LONG_RETRY =>
      if s.chipConfigured then
        esp8266_session_sendCommand_P { s with state := SessPhase.INIT_SETMUX }
          esp8266_session_cmdMux
      else
        esp8266_session_sendCommand_P { s with state := SessPhase.INIT_MODE }
          esp8266_session_cmdMode
    | _ => (s, [])

/-- `esp8266_session_send`: rejects channels above 3, rejects any state other
than `IDLE`, otherwise assembles `"AT+CIPSEND=<channel>,<size>\r"` in the
module buffer, records the pending transaction, enters `SEND_INITIATED` and
starts the transmission. -/
def esp8266_session_send (s : Sess) (channel : Nat) (buffer : List Nat)
    (size : Nat) (sendCompleteCB : Nat) : status_t × Sess × List SessAction :=
  if channel > 3 then (err_invalidChannel, s, [])
  else if s.state ≠ SessPhase.IDLE then (err_invalidState, s, [])
  else
    let msg := esp8266_session_cmdSend ++ [48 + channel, 44] ++ decimalDigits size ++ [13]
    (success,
      { s with
        sendCompleteCB := sendCompleteCB
        sendBufferReference := buffer
        sendBufferSize := size
        state := SessPhase.SEND_INITIATED
        buffer := msg },
      [SessAction.transmit msg])

/-- Modelled from the spec: `esp8266_session_sendToAll` is declared in
`esp8266_session.h` and called from `main.c`, but its definition is not among
the sources. Per the specification it obeys the same single-flight constraint
as `esp8266_session_send` (invalid-state status when the controller is not
`IDLE`, no state mutation, no transmission) and otherwise initiates a
broadcast send addressed to all connected channels, recording the pending
transaction. -/
def esp8266_session_sendToAll (s : Sess) (buffer : List Nat) (size : Nat)
    (sendCompleteCB : Nat) : status_t × Sess × List SessAction :=
  if s.state ≠ SessPhase.IDLE then (err_invalidState, s, [])
  else
    (success,
      { s with
        sendCompleteCB := sendCompleteCB
        sendBufferReference := buffer
        sendBufferSize := size
        state := SessPhase.SEND_INITIATED },
      [SessAction.broadcast buffer size])

/-- Runs `esp8266_session_timedTick` until the scheduled wait elapses and the
timer fires (i.e. `remainingTicks + 1` invocations), then delivers the given
status to `esp8266_session_statusReceived`: one complete round of attempting
the scheduled init step and receiving its reply. -/
def sessRound (s : Sess) (status : status_t) : Sess :=
  let fired := (fun t => (esp8266_session_timedTick t).1)^[s.remainingTicks + 1] s
  (esp8266_session_statusReceived fired status).1

/-- The session state after `n` consecutive failed initialization attempts
starting from `esp8266_session_init` (each attempt: wait out the scheduled
delay, start the scheduled init step, receive a generic status error). -/
def sessAfterFailures : Nat → Sess
  | 0 => esp8266_session_init
  | n + 1 => sessRound (sessAfterFailures n) err_status

/-! ### Auxiliary notions for the invariant and termination results -/

/-- Number of allocated but not yet processed bytes: the quantity the tick
loop works through. -/
def unprocessed (s : Transc) : Nat :=
  s.rrAllocation - rrsub s.rrFirstUnprocessed s.rrFirst

/-- Rank of a decoder state: 1 for the two states (`NL`, `READ_NL`) that can
hand a byte over to a successor state without consuming it, 0 otherwise. -/
def rank : DecState → Nat
  | NL => 1
  | READ_NL => 1
  | _ => 0

/-- Termination measure of the tick loop: twice the unprocessed byte count
plus the state rank. -/
def tickMeasure (s : Transc) : Nat := 2 * unprocessed s + rank s.state

/-- The ring-buffer operations whose interleavings claim C2 quantifies over:
a receive-ISR append of byte `b`, and the two cursor operations the decoder
performs from inside the tick loop (a plain advance of `rrFirstUnprocessed`,
and a release via `esp8266_transc_decreaseBufferSync`), each guarded by the
tick-loop condition under which the decoder invokes them. -/
inductive RBOp where
  | recv (b : Nat)
  | adv
  | rel

/-- One step of the ring-buffer interleaving semantics. -/
def rbStep (s : Transc) : RBOp → Transc
  | RBOp.recv b => usart_rxc_isr s b
  | RBOp.adv =>
    if loopCond s then { s with rrFirstUnprocessed := rradd s.rrFirstUnprocessed 1 }
    else s
  | RBOp.rel =>
    if loopCond s then esp8266_transc_decreaseBufferSync s
    else s

/-- Runs an arbitrary interleaving of ring-buffer operations. -/
def rbRun (s : Transc) (ops : List RBOp) : Transc := ops.foldl rbStep s

/-- The ring-buffer invariant: cursors below the buffer size, allocation at
most the capacity, and `rrFirstUnprocessed` within the allocated region
(`first ≤ firstUnprocessed ≤ first + allocation`, all mod 128). -/
def rbInv (s : Transc) : Prop :=
  s.rrFirst < 128 ∧ s.rrFirstUnprocessed < 128 ∧ s.rrAllocation ≤ 128 ∧
    rrsub s.rrFirstUnprocessed s.rrFirst ≤ s.rrAllocation

/-! ### Concrete states and inputs used by the theorems -/

/-- Byte sequence `"+IPD,2,5:ABCDE\r\nOK\r"`. -/
def ipdBytes : List Nat :=
  [43, 73, 80, 68, 44, 50, 44, 53, 58, 65, 66, 67, 68, 69, 13, 10, 79, 75, 13]

/-- Byte sequence `"\r\n+IPD,2,5:ABCDE\r\nOK\r"`: the same frame preceded by a
line terminator. -/
def ipdBytesNl : List Nat := [13, 10] ++ ipdBytes

/-- The 13 bytes of `"AT+CIPMUX=1\r\n"`, as assembled by the session layer. -/
def echoCmd : List Nat := esp8266_session_cmdMux ++ [13, 10]

/-- A transceiver state with the round-robin buffer completely full
(`rrAllocation = 128`) of non-CR bytes (ASCII `'A'`), both cursors at 1 and
the decoder accumulating a status message. Reachable from the initialized
state: receive a CR, run one decoder step (`IDLE` to `NL`, byte released),
receive 128 `'A'` bytes (filling the buffer completely), and run one decoder
step (`NL` to `STATUS_MSG`, byte kept) — proved below in `c9_counterexample`. -/
def sigma0 : Transc where
  rrBuffer := fun _ => 65
  rrFirst := 1
  rrFirstUnprocessed := 1
  rrAllocation := 128
  rcvChannelID := 0
  rcvSize := 0
  state := STATUS_MSG
  sendBuffer := []
  sendBufferSize := 0
  sendIndex := 0
  nextEcho := 0

/-- A decoder state in `STATUS_MSG` with the text `"OK"` accumulated between
`rrFirst = 1` and `rrFirstUnprocessed = 3` and the terminating CR pending
(the state reached from init after receiving `"\rOK\r"` and running four
decoder steps). -/
def statusMsgState : Transc where
  rrBuffer := fun i => if i.val = 0 then 13 else if i.val = 1 then 79 else if i.val = 2 then 75 else if i.val = 3 then 13 else 0
  rrFirst := 1
  rrFirstUnprocessed := 3
  rrAllocation := 3
  rcvChannelID := 0
  rcvSize := 0
  state := STATUS_MSG
  sendBuffer := []
  sendBufferSize := 0
  sendIndex := 0
  nextEcho := 0

/-- A session controller state in which the controller is idle. -/
def sessIdle : Sess := { esp8266_session_init with state := SessPhase.IDLE }

/-- A decoder state in the `NL` (newline-absorbing) state with a status-text
byte (ASCII `'A'`) pending at `rrFirstUnprocessed`. Reachable from the
initialized state by receiving `'\r'` then `'A'` and running one decoder
step — proved in `c7_counterexample`. -/
def nlState : Transc where
  rrBuffer := fun i => if i.val = 0 then 13 else if i.val = 1 then 65 else 0
  rrFirst := 1
  rrFirstUnprocessed := 1
  rrAllocation := 1
  rcvChannelID := 0
  rcvSize := 0
  state := NL
  sendBuffer := []
  sendBufferSize := 0
  sendIndex := 0
  nextEcho := 0

/-! ### Arithmetic lemmas about the mod-128 cursor operations -/

lemma rradd_lt (a b : Nat) : rradd a b < 128 := Nat.mod_lt _ (by norm_num)

lemma rrsub_lt (a b : Nat) : rrsub a b < 128 := Nat.mod_lt _ (by norm_num)

lemma rrsub_self (a b : Nat) (ha : a < 128) (hb : b < 128) :
    rrsub a b = 0 ↔ a = b := by
  unfold rrsub; omega

lemma rradd_one_eq_iff (a b : Nat) (ha : a < 128) (hb : b < 128) :
    rradd b 1 = a ↔ rrsub a b = 1 := by
  unfold rradd rrsub; omega

lemma rrsub_rradd_one_left (a b : Nat) (ha : a < 128) (hb : b < 128)
    (h : rrsub a b ≤ 126) :
    rrsub (rradd a 1) b = rrsub a b + 1 := by
  unfold rradd rrsub at *; omega

lemma rrsub_rradd_one_left_wrap (a b : Nat) (ha : a < 128) (hb : b < 128)
    (h : rrsub a b = 127) :
    rrsub (rradd a 1) b = 0 := by
  unfold rradd rrsub at *; omega

lemma rrsub_rradd_one_right (a b : Nat) (ha : a < 128) (hb : b < 128) :
    rrsub a (rradd b 1) = if rrsub a b = 0 then 127 else rrsub a b - 1 := by
  unfold rradd rrsub; split_ifs <;> omega

lemma rank_le_one (d : DecState) : rank d ≤ 1 := by
  cases d <;> simp [rank]

lemma rrSlice_length (buf : Fin 128 → Nat) :
    ∀ (d start : Nat), (rrSlice buf start d).length = d := by
  intro d
  induction d with
  | zero => intro start; rfl
  | succ n ih => intro start; simp [rrSlice, ih]

/-! ### Shape of a single decoder step -/

/-- Every invocation of `esp8266_transc_processNextChar` either releases the
processed prefix (advancing both cursors to `rrFirstUnprocessed + 1` and
shrinking the allocation accordingly), or advances `rrFirstUnprocessed` by
one with `rrFirst`/`rrAllocation` untouched, or — only from the rank-1
states `NL` and `READ_NL` — leaves all three ring-buffer fields unchanged
while switching to a different, rank-0 decoder state. -/
lemma step_shape (s : Transc) :
    ((esp8266_transc_processNextChar s).1.rrFirstUnprocessed = rradd s.rrFirstUnprocessed 1 ∧
      (esp8266_transc_processNextChar s).1.rrFirst = rradd s.rrFirstUnprocessed 1 ∧
      (esp8266_transc_processNextChar s).1.rrAllocation =
        (s.rrAllocation + 256 - rrsub (rradd s.rrFirstUnprocessed 1) s.rrFirst) % 256) ∨
    ((esp8266_transc_processNextChar s).1.rrFirstUnprocessed = rradd s.rrFirstUnprocessed 1 ∧
      (esp8266_transc_processNextChar s).1.rrFirst = s.rrFirst ∧
      (esp8266_transc_processNextChar s).1.rrAllocation = s.rrAllocation) ∨
    ((esp8266_transc_processNextChar s).1.rrFirstUnprocessed = s.rrFirstUnprocessed ∧
      (esp8266_transc_processNextChar s).1.rrFirst = s.rrFirst ∧
      (esp8266_transc_processNextChar s).1.rrAllocation = s.rrAllocation ∧
      rank (esp8266_transc_processNextChar s).1.state = 0 ∧ rank s.state = 1 ∧
      (esp8266_transc_processNextChar s).1.state ≠ s.state ∧
      (s.state = NL ∨ s.state = READ_NL)) := by
  obtain ⟨buf, f, fup, alloc, ch, sz, st, sb, sbs, si, ne⟩ := s
  cases st <;>
    simp only [esp8266_transc_processNextChar, esp8266_transc_decreaseBufferSync] <;>
    split_ifs <;>
    simp_all [rank]

lemma rrIndex_val (i : Fin 128) : rrIndex i.val = i :=
  Fin.ext (by simp [rrIndex, Nat.mod_eq_of_lt i.isLt])

/-- Two transceiver states are equal once their ring buffers agree on every
index below 128 and all remaining fields agree. -/
lemma transc_eq_of_pointwise (s t : Transc)
    (hb : ∀ iv, iv < 128 → s.rrBuffer (rrIndex iv) = t.rrBuffer (rrIndex iv))
    (h2 : s.rrFirst = t.rrFirst) (h3 : s.rrFirstUnprocessed = t.rrFirstUnprocessed)
    (h4 : s.rrAllocation = t.rrAllocation) (h5 : s.rcvChannelID = t.rcvChannelID)
    (h6 : s.rcvSize = t.rcvSize) (h7 : s.state = t.state)
    (h8 : s.sendBuffer = t.sendBuffer) (h9 : s.sendBufferSize = t.sendBufferSize)
    (h10 : s.sendIndex = t.sendIndex) (h11 : s.nextEcho = t.nextEcho) : s = t := by
  have hfun : s.rrBuffer = t.rrBuffer := by
    funext i
    have := hb i.val i.isLt
    rwa [rrIndex_val] at this
  cases s; cases t
  simp only [Transc.mk.injEq]
  exact ⟨hfun, h2, h3, h4, h5, h6, h7, h8, h9, h10, h11⟩

lemma nlState_reachable :
    stepN 1 (feedAll esp8266_transc_init [13, 65]) = nlState := by
  refine transc_eq_of_pointwise _ _ ?_ rfl rfl rfl rfl rfl rfl rfl rfl rfl rfl
  decide

lemma sigma0_reachable :
    stepN 1 (feedAll (stepN 1 (feedAll esp8266_transc_init [13]))
      (List.replicate 128 65)) = sigma0 := by
  refine transc_eq_of_pointwise _ _ ?_ rfl rfl rfl rfl rfl rfl rfl rfl rfl rfl
  decide

/-! ### Claim theorems -/

/-- Claim C1, counterexample: starting from the decoder state established by
`esp8266_transc_init` (state `IDLE`), delivering exactly the bytes
`"+IPD,2,5:ABCDE\r\nOK\r"` through the receive path and running the decoder
tick to completion invokes no callback at all: in `IDLE` the byte `'+'`
moves the decoder to `ERR`, which silently discards the whole line, so the
claimed message callback never happens. -/
theorem c1_counterexample :
    (tickRun 64 (feedAll esp8266_transc_init ipdBytes)).2 = [] ∧
    ¬ loopCond (tickRun 64 (feedAll esp8266_transc_init ipdBytes)).1 := by
  decide

/-- Claim C1 (amended): starting from the decoder state established by
`esp8266_transc_init`, delivering `"\r\n+IPD,2,5:ABCDE\r\nOK\r"` (the frame
preceded by a line terminator, which moves the decoder from `IDLE` to the
`NL` state that accepts `'+'`) and running the decoder tick until all bytes
are processed yields exactly one message-callback invocation with
channel = 2, length = 5, status = success, and for every offset `i` in 0..4
`esp8266_receiver_getByte` applied to the callback's frame id returns the
`i`-th byte of `"ABCDE"`. -/
theorem c1_roundtrip_amended :
    (tickRun 64 (feedAll esp8266_transc_init ipdBytesNl)).2 =
      [TranscEvent.messageEv success 2 5 11] ∧
    ¬ loopCond (tickRun 64 (feedAll esp8266_transc_init ipdBytesNl)).1 ∧
    (List.range 5).map
        (esp8266_receiver_getByte (tickRun 64 (feedAll esp8266_transc_init ipdBytesNl)).1 11) =
      [65, 66, 67, 68, 69] := by
  decide

/-- Claim C3: starting from the controller state after `esp8266_session_init`
(retry counter = 3), every init-step failure while retries remain re-enters
`INIT_WAIT` with a 1500 ms wait and decrements the counter; in the concrete
run of consecutive init-step failures, failures 1–3 each produce a short
retry (`INIT_WAIT`, 1500 ms), the controller is not in `INIT_LONG_RETRY`
after two or three failures, and the fourth failure (retry counter
exhausted) enters `INIT_LONG_RETRY` with a 180000 ms wait and the retry
counter reset to 1 — so exactly three short retries precede the long
retry. -/
theorem c3_retry_backoff (s : Sess) (h : 0 < s.retryCnt) :
    (esp8266_session_handleInitError s).1.state = SessPhase.INIT_WAIT ∧
    (esp8266_session_handleInitError s).1.remainingTicks = msToTicks 1500 ∧
    (esp8266_session_handleInitError s).1.retryCnt = s.retryCnt - 1 ∧
    ((sessAfterFailures 1).state = SessPhase.INIT_WAIT ∧
      (sessAfterFailures 1).remainingTicks = msToTicks 1500) ∧
    ((sessAfterFailures 2).state = SessPhase.INIT_WAIT ∧
      (sessAfterFailures 2).remainingTicks = msToTicks 1500 ∧
      (sessAfterFailures 2).state ≠ SessPhase.INIT_LONG_RETRY) ∧
    ((sessAfterFailures 3).state = SessPhase.INIT_WAIT ∧
      (sessAfterFailures 3).remainingTicks = msToTicks 1500 ∧
      (sessAfterFailures 3).retryCnt = 0 ∧
      (sessAfterFailures 3).state ≠ SessPhase.INIT_LONG_RETRY) ∧
    ((sessAfterFailures 4).state = SessPhase.INIT_LONG_RETRY ∧
      (sessAfterFailures 4).remainingTicks = msToTicks 180000 ∧
      (sessAfterFailures 4).retryCnt = 1) := by
  refine ⟨?_, ?_, ?_, by decide, by decide, by decide, by decide⟩ <;>
    simp [esp8266_session_handleInitError, esp8266_session_sendCommand_P, h]

/-- Witness for C3 at the freshly initialized controller state. -/
theorem c3_retry_backoff_witness :
    0 < esp8266_session_init.retryCnt ∧
    ((esp8266_session_handleInitError esp8266_session_init).1.state = SessPhase.INIT_WAIT ∧
      (esp8266_session_handleInitError esp8266_session_init).1.remainingTicks = msToTicks 1500 ∧
      (esp8266_session_handleInitError esp8266_session_init).1.retryCnt =
        esp8266_session_init.retryCnt - 1 ∧
      ((sessAfterFailures 1).state = SessPhase.INIT_WAIT ∧
        (sessAfterFailures 1).remainingTicks = msToTicks 1500) ∧
      ((sessAfterFailures 2).state = SessPhase.INIT_WAIT ∧
        (sessAfterFailures 2).remainingTicks = msToTicks 1500 ∧
        (sessAfterFailures 2).state ≠ SessPhase.INIT_LONG_RETRY) ∧
      ((sessAfterFailures 3).state = SessPhase.INIT_WAIT ∧
        (sessAfterFailures 3).remainingTicks = msToTicks 1500 ∧
        (sessAfterFailures 3).retryCnt = 0 ∧
        (sessAfterFailures 3).state ≠ SessPhase.INIT_LONG_RETRY) ∧
      ((sessAfterFailures 4).state = SessPhase.INIT_LONG_RETRY ∧
        (sessAfterFailures 4).remainingTicks = msToTicks 180000 ∧
        (sessAfterFailures 4).retryCnt = 1)) :=
  ⟨by decide, c3_retry_backoff esp8266_session_init (by decide)⟩

/-- Claim C4: after `esp8266_transc_send` with the 13 bytes of
`"AT+CIPMUX=1\r\n"`, delivering those same 13 bytes in order to the receive
interrupt handler stores zero bytes (after every prefix of the deliveries the
allocation is still 0 and the echo cursor equals the number of delivered
bytes) and the decoder tick performs zero callback invocations. -/
theorem c4_echo_absorption :
    ((List.range 14).all fun i =>
      ((feedAll (esp8266_transc_send esp8266_transc_init echoCmd 13).1
          (echoCmd.take i)).rrAllocation == 0) &&
      ((feedAll (esp8266_transc_send esp8266_transc_init echoCmd 13).1
          (echoCmd.take i)).nextEcho == i)) = true ∧
    tickRun 64 (feedAll (esp8266_transc_send esp8266_transc_init echoCmd 13).1 echoCmd) =
      (feedAll (esp8266_transc_send esp8266_transc_init echoCmd 13).1 echoCmd, []) := by
  decide

/-- Claim C5: `esp8266_session_send` returns the invalid-channel status for
any channel above 3, and the invalid-state status when the controller is not
`IDLE`; in both failure cases the session state is returned unchanged and no
action (no transmission, no completion-callback invocation) is emitted. -/
theorem c5_send_rejects (s : Sess) (channel : Nat) (buffer : List Nat)
    (size cb : Nat) (h : 3 < channel ∨ s.state ≠ SessPhase.IDLE) :
    esp8266_session_send s channel buffer size cb =
      ((if 3 < channel then err_invalidChannel else err_invalidState), s, []) := by
  unfold esp8266_session_send
  rcases h with h | h
  · simp [h]
  · by_cases hc : 3 < channel <;> simp [hc, h]

/-- Witness for C5 at channel 5 from the initialized (non-idle) state. -/
theorem c5_send_rejects_witness :
    (3 < 5 ∨ esp8266_session_init.state ≠ SessPhase.IDLE) ∧
    esp8266_session_send esp8266_session_init 5 [] 0 0 =
      ((if 3 < 5 then err_invalidChannel else err_invalidState),
        esp8266_session_init, []) :=
  ⟨Or.inl (by decide),
    c5_send_rejects esp8266_session_init 5 [] 0 0 (Or.inl (by decide))⟩

/-- Claim C8: the modelled `esp8266_session_sendToAll` obeys the same
single-flight constraint as `esp8266_session_send`: called while the
controller is not `IDLE` it returns the invalid-state status without
mutating session state or emitting any action; called while `IDLE` it
returns success, moves to `SEND_INITIATED` and initiates one broadcast send
addressed to all connected channels. -/
theorem c8_sendToAll_single_flight (s : Sess) (buffer : List Nat) (size cb : Nat) :
    (s.state ≠ SessPhase.IDLE →
      esp8266_session_sendToAll s buffer size cb = (err_invalidState, s, [])) ∧
    (s.state = SessPhase.IDLE →
      (esp8266_session_sendToAll s buffer size cb).1 = success ∧
      (esp8266_session_sendToAll s buffer size cb).2.1.state = SessPhase.SEND_INITIATED ∧
      (esp8266_session_sendToAll s buffer size cb).2.2 =
        [SessAction.broadcast buffer size]) := by
  constructor
  · intro h; simp [esp8266_session_sendToAll, h]
  · intro h; simp [esp8266_session_sendToAll, h]

/-- Witness for C8: rejection from the (non-idle) initialized state and
acceptance from an idle state. -/
theorem c8_sendToAll_single_flight_witness :
    esp8266_session_sendToAll esp8266_session_init [1] 1 0 =
      (err_invalidState, esp8266_session_init, []) ∧
    ((esp8266_session_sendToAll sessIdle [1] 1 0).1 = success ∧
      (esp8266_session_sendToAll sessIdle [1] 1 0).2.1.state = SessPhase.SEND_INITIATED ∧
      (esp8266_session_sendToAll sessIdle [1] 1 0).2.2 = [SessAction.broadcast [1] 1]) :=
  ⟨(c8_sendToAll_single_flight esp8266_session_init [1] 1 0).1 (by decide),
    (c8_sendToAll_single_flight sessIdle [1] 1 0).2 (by decide)⟩

/-- Claim C9, counterexample: from the reachable full-buffer state `sigma0`
(128 unprocessed `'A'` bytes, decoder in `STATUS_MSG`) the tick-loop
condition still holds after every number of iterations up to 256 — more than
twice the 128 unprocessed bytes — and 128 iterations reproduce `sigma0`
exactly, so the loop never terminates: advancing `rrFirstUnprocessed` wraps
mod 128 and the distance to `rrFirst` returns to 0 while `rrAllocation`
stays 128. -/
theorem c9_counterexample :
    stepN 1 (feedAll (stepN 1 (feedAll esp8266_transc_init [13]))
      (List.replicate 128 65)) = sigma0 ∧
    ((List.range 257).all fun k => decide (loopCond (stepN k sigma0))) = true ∧
    stepN 128 sigma0 = sigma0 :=
  ⟨sigma0_reachable, by decide, by decide⟩

/-- Claim C10: `esp8266_transc_send(buffer, 0)` is not a no-op: it writes
`buffer[0]` to the UART data register unconditionally, so exactly one byte
is transmitted although the declared size is zero; the following
transmit-ready interrupt disarms immediately without sending more, and echo
matching is disabled because the echo cursor 0 is not below the size 0 (the
receive handler leaves the echo cursor untouched for every byte). -/
theorem c10_send_zero_size (s : Transc) (buffer : List Nat) :
    transc_transmittedBytes s buffer 0 = [buffer.getD 0 0] ∧
    (esp8266_transc_send s buffer 0).2 = buffer.getD 0 0 ∧
    usart_udre_isr (esp8266_transc_send s buffer 0).1 =
      ((esp8266_transc_send s buffer 0).1, none) ∧
    ¬ (esp8266_transc_send s buffer 0).1.nextEcho <
        (esp8266_transc_send s buffer 0).1.sendBufferSize ∧
    (∀ rcv : Nat,
      (usart_rxc_isr (esp8266_transc_send s buffer 0).1 rcv).nextEcho = 0) := by
  refine ⟨?_, rfl, ?_, by simp [esp8266_transc_send], ?_⟩
  · simp [transc_transmittedBytes, esp8266_transc_send, udreRun, usart_udre_isr]
  · simp [esp8266_transc_send, usart_udre_isr]
  · intro rcv
    simp [esp8266_transc_send, usart_rxc_isr]
    split <;> simp

/-- Claim C7, counterexample: in the reachable state `nlState` (decoder in
`NL`, a status-text byte pending) one invocation of the per-byte processing
step leaves `rrFirstUnprocessed`, `rrFirst` and `rrAllocation` all
unchanged — it only switches the decoder state to `STATUS_MSG` — so it is
not the case that every invocation advances `rrFirstUnprocessed` and/or
releases bytes. -/
theorem c7_counterexample :
    stepN 1 (feedAll esp8266_transc_init [13, 65]) = nlState ∧
    (esp8266_transc_processNextChar nlState).1.rrFirstUnprocessed =
      nlState.rrFirstUnprocessed ∧
    (esp8266_transc_processNextChar nlState).1.rrFirst = nlState.rrFirst ∧
    (esp8266_transc_processNextChar nlState).1.rrAllocation = nlState.rrAllocation :=
  ⟨nlState_reachable, by decide, by decide, by decide⟩

/-- Claim C7 (amended): every invocation of the decoder's per-byte processing
step either advances `rrFirstUnprocessed` by one position (and possibly
releases bytes up to it), or — only in the two hand-over transitions out of
`NL` and `READ_NL` — leaves `rrFirstUnprocessed`, `rrFirst` and
`rrAllocation` unchanged while moving to a different decoder state, so that
the following invocation consumes the byte. -/
theorem c7_step_progress_amended (s : Transc) :
    (esp8266_transc_processNextChar s).1.rrFirstUnprocessed =
      rradd s.rrFirstUnprocessed 1 ∨
    ((esp8266_transc_processNextChar s).1.rrFirstUnprocessed = s.rrFirstUnprocessed ∧
      (esp8266_transc_processNextChar s).1.rrFirst = s.rrFirst ∧
      (esp8266_transc_processNextChar s).1.rrAllocation = s.rrAllocation ∧
      (esp8266_transc_processNextChar s).1.state ≠ s.state ∧
      (s.state = NL ∨ s.state = READ_NL)) := by
  rcases step_shape s with ⟨h, _⟩ | ⟨h, _⟩ | ⟨h1, h2, h3, _, _, h6, h7⟩
  · exact Or.inl h
  · exact Or.inl h
  · exact Or.inr ⟨h1, h2, h3, h6, h7⟩

lemma step_decreases (s : Transc) (hf : s.rrFirst < 128)
    (hu : s.rrFirstUnprocessed < 128) (ha : s.rrAllocation ≤ 127)
    (hc : loopCond s) :
    tickMeasure (esp8266_transc_processNextChar s).1 < tickMeasure s ∧
    (esp8266_transc_processNextChar s).1.rrFirst < 128 ∧
    (esp8266_transc_processNextChar s).1.rrFirstUnprocessed < 128 ∧
    (esp8266_transc_processNextChar s).1.rrAllocation ≤ 127 := by
  have hrank := rank_le_one (esp8266_transc_processNextChar s).1.state
  have hrank0 := rank_le_one s.state
  have hd : rrsub s.rrFirstUnprocessed s.rrFirst < s.rrAllocation := hc
  have hd126 : rrsub s.rrFirstUnprocessed s.rrFirst ≤ 126 := by omega
  have hstep := rrsub_rradd_one_left s.rrFirstUnprocessed s.rrFirst hu hf hd126
  rcases step_shape s with ⟨h1, h2, h3⟩ | ⟨h1, h2, h3⟩ | ⟨h1, h2, h3, h4, h5, _, _⟩
  · -- release: both cursors advance to rrFirstUnprocessed + 1
    have hz : rrsub (rradd s.rrFirstUnprocessed 1) (rradd s.rrFirstUnprocessed 1) = 0 := by
      simpa using (rrsub_self _ _ (rradd_lt _ _) (rradd_lt _ _)).mpr rfl
    refine ⟨?_, ?_, ?_, ?_⟩ <;>
      simp only [tickMeasure, unprocessed, h1, h2, h3, hstep, hz] <;>
      first
        | omega
        | exact rradd_lt _ _
  · -- plain advance
    refine ⟨?_, ?_, ?_, ?_⟩ <;>
      simp only [tickMeasure, unprocessed, h1, h2, h3, hstep] <;>
      first
        | omega
        | exact rradd_lt _ _
        | assumption
  · -- hand-over transition: measure drops from rank 1 to rank 0
    refine ⟨?_, ?_, ?_, ?_⟩ <;>
      simp only [tickMeasure, unprocessed, h1, h2, h3, h4, h5] <;>
      first
        | omega
        | assumption

lemma stepN_succ (k : Nat) (s : Transc) :
    stepN (k + 1) s = stepN k (esp8266_transc_processNextChar s).1 := rfl

lemma tick_term_aux :
    ∀ (m : Nat) (s : Transc), tickMeasure s ≤ m → s.rrFirst < 128 →
      s.rrFirstUnprocessed < 128 → s.rrAllocation ≤ 127 →
      ∃ k, k ≤ tickMeasure s ∧ (loopCond s → k < tickMeasure s) ∧
        ¬ loopCond (stepN k s) := by
  intro m
  induction m with
  | zero =>
    intro s hm hf hu ha
    by_cases hc : loopCond s
    · exact absurd (step_decreases s hf hu ha hc).1 (by omega)
    · exact ⟨0, by omega, fun h => absurd h hc, hc⟩
  | succ n ih =>
    intro s hm hf hu ha
    by_cases hc : loopCond s
    · obtain ⟨hdec, hf1, hu1, ha1⟩ := step_decreases s hf hu ha hc
      have h2 : 2 ≤ tickMeasure s := by
        have hlt : rrsub s.rrFirstUnprocessed s.rrFirst < s.rrAllocation := hc
        have := rank_le_one s.state
        simp only [tickMeasure, unprocessed]
        omega
      by_cases hc1 : loopCond (esp8266_transc_processNextChar s).1
      · obtain ⟨k, hk1, hk2, hk3⟩ :=
          ih (esp8266_transc_processNextChar s).1 (by omega) hf1 hu1 ha1
        have hklt := hk2 hc1
        exact ⟨k + 1, by omega, fun _ => by omega, by rwa [stepN_succ]⟩
      · exact ⟨1, by omega, fun _ => by omega, by rwa [stepN_succ]⟩
    · exact ⟨0, by omega, fun h => absurd h hc, hc⟩

/-- Claim C9 (amended): from every decoder/ring-buffer state whose cursors
are in range and whose allocation is at most 127 — i.e. the ring buffer is
not completely full, which excludes the wrap-around of the cursor distance
exhibited by the counterexample — `esp8266_transc_tick` terminates when no
new bytes arrive: the loop condition becomes false within at most twice the
count of unprocessed bytes many iterations. -/
theorem c9_tick_termination_amended (s : Transc) (hf : s.rrFirst < 128)
    (hu : s.rrFirstUnprocessed < 128) (ha : s.rrAllocation ≤ 127) :
    ∃ k, k ≤ 2 * unprocessed s ∧ ¬ loopCond (stepN k s) := by
  by_cases hc : loopCond s
  · obtain ⟨k, hk1, hk2, hk3⟩ := tick_term_aux (tickMeasure s) s le_rfl hf hu ha
    refine ⟨k, ?_, hk3⟩
    have := hk2 hc
    have := rank_le_one s.state
    simp only [tickMeasure] at *
    omega
  · exact ⟨0, by omega, hc⟩

/-- Witness for C9 (amended) at the freshly initialized transceiver state. -/
theorem c9_tick_termination_amended_witness :
    (esp8266_transc_init.rrFirst < 128 ∧ esp8266_transc_init.rrFirstUnprocessed < 128 ∧
      esp8266_transc_init.rrAllocation ≤ 127) ∧
    ∃ k, k ≤ 2 * unprocessed esp8266_transc_init ∧
      ¬ loopCond (stepN k esp8266_transc_init) :=
  ⟨⟨by decide, by decide, by decide⟩,
    c9_tick_termination_amended esp8266_transc_init (by decide) (by decide) (by decide)⟩

lemma rbStep_preserves (s : Transc) (h : rbInv s) (op : RBOp) :
    rbInv (rbStep s op) := by
  obtain ⟨hf, hu, ha, hd⟩ := h
  cases op with
  | recv b =>
    simp only [rbStep, usart_rxc_isr]
    split_ifs with h1 h2
    · exact ⟨hf, hu, ha, hd⟩
    · exact ⟨hf, hu, by dsimp only; omega, by dsimp only; omega⟩
    · exact ⟨hf, hu, ha, hd⟩
  | adv =>
    simp only [rbStep]
    split_ifs with h1
    · have hlt : rrsub s.rrFirstUnprocessed s.rrFirst < s.rrAllocation := h1
      refine ⟨hf, rradd_lt _ _, ha, ?_⟩
      dsimp only
      by_cases h127 : rrsub s.rrFirstUnprocessed s.rrFirst = 127
      · rw [rrsub_rradd_one_left_wrap _ _ hu hf h127]; omega
      · rw [rrsub_rradd_one_left _ _ hu hf (by omega)]; omega
    · exact ⟨hf, hu, ha, hd⟩
  | rel =>
    simp only [rbStep]
    split_ifs with h1
    · have hlt : rrsub s.rrFirstUnprocessed s.rrFirst < s.rrAllocation := h1
      have hsub : rrsub (rradd s.rrFirstUnprocessed 1) s.rrFirst ≤ s.rrAllocation := by
        by_cases h127 : rrsub s.rrFirstUnprocessed s.rrFirst = 127
        · rw [rrsub_rradd_one_left_wrap _ _ hu hf h127]; omega
        · rw [rrsub_rradd_one_left _ _ hu hf (by omega)]; omega
      refine ⟨rradd_lt _ _, rradd_lt _ _, ?_, ?_⟩ <;>
        simp only [esp8266_transc_decreaseBufferSync]
      · omega
      · rw [(rrsub_self _ _ (rradd_lt _ _) (rradd_lt _ _)).mpr rfl]
        omega
    · exact ⟨hf, hu, ha, hd⟩

lemma rbRun_inv (ops : List RBOp) :
    ∀ s : Transc, rbInv s → rbInv (rbRun s ops) := by
  induction ops with
  | nil => intro s h; exact h
  | cons op rest ih =>
    intro s h
    exact ih (rbStep s op) (rbStep_preserves s h op)

/-- Claim C2: for every interleaving of receive-ISR appends and tick-guarded
decoder cursor operations (advances and `esp8266_transc_decreaseBufferSync`
releases) starting from the initialized ring buffer, the allocation never
exceeds the capacity 128 and `rrFirstUnprocessed` stays within the allocated
region (`first ≤ firstUnprocessed ≤ first + allocation`, mod 128); moreover
whenever the release guard holds, the amount the release subtracts from the
allocation is at most the allocation, so the `uint8_t` decrement never
underflows. -/
theorem c2_ring_invariant (ops : List RBOp) :
    (rbRun esp8266_transc_init ops).rrAllocation ≤ 128 ∧
    rrsub (rbRun esp8266_transc_init ops).rrFirstUnprocessed
        (rbRun esp8266_transc_init ops).rrFirst ≤
      (rbRun esp8266_transc_init ops).rrAllocation ∧
    (¬ loopCond (rbRun esp8266_transc_init ops) ∨
      rrsub (rradd (rbRun esp8266_transc_init ops).rrFirstUnprocessed 1)
          (rbRun esp8266_transc_init ops).rrFirst ≤
        (rbRun esp8266_transc_init ops).rrAllocation) := by
  obtain ⟨hf, hu, ha, hd⟩ := rbRun_inv ops esp8266_transc_init (by simp only [rbInv]; decide)
  refine ⟨ha, hd, ?_⟩
  by_cases hc : loopCond (rbRun esp8266_transc_init ops)
  · have hlt : rrsub (rbRun esp8266_transc_init ops).rrFirstUnprocessed
        (rbRun esp8266_transc_init ops).rrFirst <
        (rbRun esp8266_transc_init ops).rrAllocation := hc
    right
    by_cases h127 : rrsub (rbRun esp8266_transc_init ops).rrFirstUnprocessed
        (rbRun esp8266_transc_init ops).rrFirst = 127
    · rw [rrsub_rradd_one_left_wrap _ _ hu hf h127]; omega
    · rw [rrsub_rradd_one_left _ _ hu hf (by omega)]; omega
  · exact Or.inl hc

/-! ### Relating `esp8266_transc_rrstrcmp_PF` to the buffered text -/

lemma rrSlice_zero (buf : Fin 128 → Nat) (start : Nat) :
    rrSlice buf start 0 = [] := rfl

lemma rrSlice_succ (buf : Fin 128 → Nat) (start d : Nat) :
    rrSlice buf start (d + 1) = buf (rrIndex start) :: rrSlice buf (rradd start 1) d := rfl

lemma rrstrcmp_cons_ne (buf : Fin 128 → Nat) (start stop r : Nat) (rest : List Nat)
    (h : buf (rrIndex start) ≠ r) :
    esp8266_transc_rrstrcmp_PF buf start stop (r :: rest) =
      (buf (rrIndex start) : Int) - r := by
  simp only [esp8266_transc_rrstrcmp_PF]
  rw [if_pos]
  exact fun hc => h (by exact_mod_cast hc)

lemma rrstrcmp_cons_one (buf : Fin 128 → Nat) (start stop r : Nat)
    (h : buf (rrIndex start) = r) :
    esp8266_transc_rrstrcmp_PF buf start stop [r] =
      if rradd start 1 = stop then 0 else 1 := by
  simp only [esp8266_transc_rrstrcmp_PF]
  rw [if_neg (by simp [h])]
  simp

lemma rrstrcmp_cons_stop (buf : Fin 128 → Nat) (start stop r r2 : Nat)
    (rest2 : List Nat) (h : buf (rrIndex start) = r) (hs : rradd start 1 = stop)
    (hr2 : r2 ≠ 0) :
    esp8266_transc_rrstrcmp_PF buf start stop (r :: r2 :: rest2) = -1 := by
  simp only [esp8266_transc_rrstrcmp_PF]
  rw [if_neg (by simp [h])]
  simp [hs, hr2]

lemma rrstrcmp_cons_cont (buf : Fin 128 → Nat) (start stop r r2 : Nat)
    (rest2 : List Nat) (h : buf (rrIndex start) = r) (hs : rradd start 1 ≠ stop)
    (hr2 : r2 ≠ 0) :
    esp8266_transc_rrstrcmp_PF buf start stop (r :: r2 :: rest2) =
      esp8266_transc_rrstrcmp_PF buf (rradd start 1) stop (r2 :: rest2) := by
  simp only [esp8266_transc_rrstrcmp_PF]
  rw [if_neg (by simp [h])]
  rw [if_pos (by exact ⟨hs, by simpa using hr2⟩)]

/-- The C comparison routine reports equality (result 0) exactly when the
text stored in the round-robin buffer between the two cursors equals the
reference string, for every reference that is nonempty, free of NUL bytes
and shorter than the buffer (all three hold for the strings the decoder
compares against). -/
lemma rrstrcmp_eq_zero_iff (buf : Fin 128 → Nat) :
    ∀ (ref : List Nat) (start stop : Nat), start < 128 → stop < 128 →
      ref ≠ [] → (∀ x ∈ ref, x ≠ 0) → ref.length ≤ 127 →
      (esp8266_transc_rrstrcmp_PF buf start stop ref = 0 ↔
        rrSlice buf start (rrsub stop start) = ref) := by
  intro ref
  induction ref with
  | nil => intro start stop _ _ hne _ _; exact absurd rfl hne
  | cons r rest ih =>
    intro start stop hstart hstop _ hzero hlen
    by_cases hcr : buf (rrIndex start) = r
    case neg =>
      rw [rrstrcmp_cons_ne buf start stop r rest hcr]
      constructor
      · intro h0
        exfalso
        exact hcr (by exact_mod_cast sub_eq_zero.mp h0)
      · intro hR
        exfalso
        rcases hd : rrsub stop start with _ | n
        · rw [hd, rrSlice_zero] at hR; exact List.noConfusion hR
        · rw [hd, rrSlice_succ] at hR
          exact hcr (List.head_eq_of_cons_eq hR)
    case pos =>
      have hs1eq : rradd start 1 = stop ↔ rrsub stop start = 1 :=
        rradd_one_eq_iff stop start hstop hstart
      cases rest with
      | nil =>
        rw [rrstrcmp_cons_one buf start stop r hcr]
        constructor
        · intro h0
          have hs : rradd start 1 = stop := by
            by_contra hne
            rw [if_neg hne] at h0
            exact one_ne_zero h0
          have hd1 : rrsub stop start = 1 := hs1eq.mp hs
          rw [hd1, rrSlice_succ, rrSlice_zero, hcr]
        · intro hR
          have hd1 : rrsub stop start = 1 := by
            rcases hd : rrsub stop start with _ | n
            · rw [hd, rrSlice_zero] at hR; exact absurd hR (by simp)
            · rw [hd, rrSlice_succ] at hR
              have := congrArg List.length hR
              simp [rrSlice_length] at this
              omega
          rw [if_pos (hs1eq.mpr hd1)]
      | cons r2 rest2 =>
        have hr2 : r2 ≠ 0 := hzero r2 (by simp)
        by_cases hse : rradd start 1 = stop
        · rw [rrstrcmp_cons_stop buf start stop r r2 rest2 hcr hse hr2]
          constructor
          · intro h0; exact absurd h0 (by norm_num)
          · intro hR
            exfalso
            have hd1 : rrsub stop start = 1 := hs1eq.mp hse
            rw [hd1, rrSlice_succ, rrSlice_zero] at hR
            have := congrArg List.length hR
            simp at this
        · rw [rrstrcmp_cons_cont buf start stop r r2 rest2 hcr hse hr2]
          have hih := ih (rradd start 1) stop (rradd_lt start 1) hstop (by simp)
            (fun x hx => hzero x (List.mem_cons_of_mem r hx))
            (by simp at hlen ⊢; omega)
          rw [hih]
          by_cases hd0 : rrsub stop start = 0
          · rw [rrsub_rradd_one_right stop start hstop hstart, if_pos hd0, hd0]
            constructor
            · intro hR
              exfalso
              have := congrArg List.length hR
              simp [rrSlice_length] at this hlen
              omega
            · intro hR; exact absurd hR (by simp [rrSlice_zero])
          · have hd1 : rrsub stop start ≠ 1 := fun h => hse (hs1eq.mpr h)
            have hd2 : 2 ≤ rrsub stop start := by omega
            rw [rrsub_rradd_one_right stop start hstop hstart, if_neg hd0]
            obtain ⟨n, hn⟩ : ∃ n, rrsub stop start = n + 2 :=
              ⟨rrsub stop start - 2, by omega⟩
            rw [hn]
            have : n + 2 - 1 = n + 1 := by omega
            rw [this, rrSlice_succ buf start (n + 1), hcr]
            constructor
            · intro hR; rw [hR]
            · intro hR; exact (List.cons_eq_cons.mp hR).2

/-- Claim C6: for every status line processed by the decoder — a `STATUS_MSG`
state with the accumulated text between `rrFirst` and `rrFirstUnprocessed`
and the terminating CR pending — one decoder step invokes the status
callback exactly once, with status success if the accumulated text equals
`"OK"` or `"SEND OK"`, the distinguished no-change status if it equals
`"no change"`, and the generic status error otherwise; afterwards the
decoder is in the `ERR` state and the accumulated bytes are released. -/
theorem c6_status_classification (s : Transc) (hst : s.state = STATUS_MSG)
    (hf : s.rrFirst < 128) (hu : s.rrFirstUnprocessed < 128)
    (hcr : s.rrBuffer (rrIndex s.rrFirstUnprocessed) = 13) :
    esp8266_transc_processNextChar s =
      (esp8266_transc_decreaseBufferSync { s with state := ERR },
        [TranscEvent.statusEv
          (if rrSlice s.rrBuffer s.rrFirst (rrsub s.rrFirstUnprocessed s.rrFirst) =
                esp8266_transc_str_ok ∨
              rrSlice s.rrBuffer s.rrFirst (rrsub s.rrFirstUnprocessed s.rrFirst) =
                esp8266_transc_str_sendOk
            then success
            else if rrSlice s.rrBuffer s.rrFirst (rrsub s.rrFirstUnprocessed s.rrFirst) =
                esp8266_transc_str_noChange
            then err_noChange
            else err_status)]) := by
  have e1 := rrstrcmp_eq_zero_iff s.rrBuffer esp8266_transc_str_ok
    s.rrFirst s.rrFirstUnprocessed hf hu (by decide) (by decide) (by decide)
  have e2 := rrstrcmp_eq_zero_iff s.rrBuffer esp8266_transc_str_sendOk
    s.rrFirst s.rrFirstUnprocessed hf hu (by decide) (by decide) (by decide)
  have e3 := rrstrcmp_eq_zero_iff s.rrBuffer esp8266_transc_str_noChange
    s.rrFirst s.rrFirstUnprocessed hf hu (by decide) (by decide) (by decide)
  obtain ⟨buf, f, fup, alloc, ch, sz, st, sb, sbs, si, ne⟩ := s
  dsimp only at hst hcr e1 e2 e3 ⊢
  subst hst
  simp only [esp8266_transc_processNextChar, hcr, if_pos rfl]
  rw [Prod.mk.injEq]
  refine ⟨rfl, ?_⟩
  simp only [e1, e2, e3]
  by_cases h1 : rrSlice buf f (rrsub fup f) = esp8266_transc_str_ok <;>
    by_cases h2 : rrSlice buf f (rrsub fup f) = esp8266_transc_str_sendOk <;>
    by_cases h3 : rrSlice buf f (rrsub fup f) = esp8266_transc_str_noChange <;>
    simp [h1, h2, h3] <;> decide

/-- Witness for C6 at a state whose accumulated status text is `"OK"`. -/
theorem c6_status_classification_witness :
    (statusMsgState.state = STATUS_MSG ∧ statusMsgState.rrFirst < 128 ∧
      statusMsgState.rrFirstUnprocessed < 128 ∧
      statusMsgState.rrBuffer (rrIndex statusMsgState.rrFirstUnprocessed) = 13) ∧
    esp8266_transc_processNextChar statusMsgState =
      (esp8266_transc_decreaseBufferSync { statusMsgState with state := ERR },
        [TranscEvent.statusEv
          (if rrSlice statusMsgState.rrBuffer statusMsgState.rrFirst
                (rrsub statusMsgState.rrFirstUnprocessed statusMsgState.rrFirst) =
                esp8266_transc_str_ok ∨
              rrSlice statusMsgState.rrBuffer statusMsgState.rrFirst
                (rrsub statusMsgState.rrFirstUnprocessed statusMsgState.rrFirst) =
                esp8266_transc_str_sendOk
            then success
            else if rrSlice statusMsgState.rrBuffer statusMsgState.rrFirst
                (rrsub statusMsgState.rrFirstUnprocessed statusMsgState.rrFirst) =
                esp8266_transc_str_noChange
            then err_noChange
            else err_status)]) :=
  ⟨⟨by decide, by decide, by decide, by decide⟩,
    c6_status_classification statusMsgState (by decide) (by decide) (by decide) (by decide)⟩

end WiFiRoomSensor
